import Mathlib

/-!
Verification of the `cpprun` utility (src/cpprun.cpp).

The program is a compile-then-run orchestrator: it splits its argument list
at a `--` separator, parses environment variables and tool-side options into
a configuration record, invokes the compiler, and (unless build-only) runs
the produced binary, cleaning up a tool-created temporary directory on
every exit path.

This file gives a shallow embedding of the program:

* pure helpers (`split_args`, `parse_cpprun_args`, `collect_build_args`)
  are translated directly into Lean functions;
* the process runner `runCmd` is modelled over an explicit description of
  the spawn outcome (`SpawnResult`); the `wait` status word is kept as a
  raw natural number and decoded with the arithmetic of the POSIX
  `WIFEXITED` / `WEXITSTATUS` / `WIFSIGNALED` / `WTERMSIG` macros;
* the orchestrator `inner_main` is modelled as a function of an `Oracle`
  (environment lookups, the random temporary directory name, filesystem
  answers, and the outcome of each spawn) producing the final exit code
  together with a trace of externally visible events.
-/

namespace cpprun

/-- Source: `DEFAULT_CXXFLAGS` (cpprun.cpp lines 45-50). -/
def DEFAULT_CXXFLAGS : List String := ["-Wall", "-Wextra", "-pedantic", "-g"]

/-- Source: `DEFAULT_CXX_STANDARD` (cpprun.cpp line 52). -/
def DEFAULT_CXX_STANDARD : String := "-std=c++23"

/-- Source: `extend` (cpprun.cpp lines 54-57): append `src` to the end of `dst`. -/
def extend (dst src : List String) : List String := dst ++ src

/-- Source: `append` (cpprun.cpp lines 59-62): push one value onto `dst`. -/
def append (dst : List String) (value : String) : List String := dst ++ [value]

/-- Source: `contains` (cpprun.cpp lines 227-229): membership test via `std::find`. -/
def contains (haystack : List String) (needle : String) : Bool :=
  haystack.contains needle

/-- Source: `split_args` (cpprun.cpp lines 120-140).  `std::find` locates the
first occurrence of `sep`; without one the whole list is tool-side, otherwise
the tool-side part is everything strictly before it and the program-side part
everything strictly after it. -/
def split_args (args : List String) (sep : String) : List String × List String :=
  if sep ∈ args then
    (args.takeWhile (fun a => a != sep), (args.dropWhile (fun a => a != sep)).drop 1)
  else
    (args, [])

/-- Source: `struct CpprunArgs` (cpprun.cpp lines 142-150). -/
structure CpprunArgs where
  show_compiler_info : Bool
  build_only : Bool
  verbose : Bool
  cxx : String
  cxx_standard : Option String
  output_path : Option String
  build_args : List String
  deriving DecidableEq, Repr

/-- Field defaults of `struct CpprunArgs` (cpprun.cpp lines 142-150). -/
def default_cpprun_args : CpprunArgs :=
  { show_compiler_info := false
    build_only := false
    verbose := false
    cxx := "c++"
    cxx_standard := some DEFAULT_CXX_STANDARD
    output_path := none
    build_args := [] }

/-- The four environment variables read by `parse_cpprun_args`
(cpprun.cpp lines 155-177); `none` models an unset variable. -/
structure Env where
  cxxflags : Option String
  verbose : Option String
  cxx_standard : Option String
  cxx : Option String

/-- Digit-run accumulator for `atoi`. -/
def atoi_digits : List Char → Nat → Nat
  | [], acc => acc
  | c :: rest, acc =>
    if c.isDigit then atoi_digits rest (acc * 10 + (c.toNat - 48)) else acc

/-- Model of C `atoi` as used on `CPPRUN_VERBOSE` (cpprun.cpp line 166):
skip leading whitespace, optional sign, then a digit run; a string with no
leading digits parses as 0. -/
def atoi (s : String) : Int :=
  match s.toList.dropWhile (fun c => c.isWhitespace) with
  | '-' :: rest => -(atoi_digits rest 0 : Int)
  | '+' :: rest => (atoi_digits rest 0 : Int)
  | cs => (atoi_digits cs 0 : Int)

/-- Character-level worker for `split_whitespace`: walks the input with the
current (reversed) word in `acc`, emitting a word at each whitespace
boundary and at the end. -/
def ws_fold : List Char → List Char → List String
  | [], acc => if acc = [] then [] else [String.mk acc.reverse]
  | c :: rest, acc =>
    if c.isWhitespace then
      if acc = [] then ws_fold rest []
      else String.mk acc.reverse :: ws_fold rest []
    else
      ws_fold rest (c :: acc)

/-- Model of `std::istringstream` extraction (cpprun.cpp lines 156-160):
the maximal non-whitespace runs of `s`, in order; an all-whitespace or
empty string yields no tokens. -/
def split_whitespace (s : String) : List String :=
  ws_fold s.toList []

/-- Environment-variable phase of `parse_cpprun_args`
(cpprun.cpp lines 153-177), performed before the token loop. -/
def parse_env (env : Env) : CpprunArgs :=
  let a0 := default_cpprun_args
  let a1 :=
    match env.cxxflags with
    | some v => { a0 with build_args := split_whitespace v }
    | none => { a0 with build_args := extend a0.build_args DEFAULT_CXXFLAGS }
  let a2 :=
    match env.verbose with
    | some v => { a1 with verbose := atoi v != 0 }
    | none => a1
  let a3 :=
    match env.cxx_standard with
    | some v => { a2 with cxx_standard := if v = "" then none else some v }
    | none => a2
  match env.cxx with
  | some v => { a3 with cxx := v }
  | none => a3

/-- Token loop of `parse_cpprun_args` (cpprun.cpp lines 179-196).  The C++
loop walks the vector by index; `-o` consumes the following element and
throws `std::runtime_error` when none exists, modelled by `Except.error`. -/
def parse_loop : CpprunArgs → List String → Except String CpprunArgs
  | args, [] => Except.ok args
  | args, a :: rest =>
    if a = "--cpprun-compiler-info" then
      parse_loop { args with show_compiler_info := true } rest
    else if a = "-c" then
      parse_loop { args with build_only := true } rest
    else if a = "-o" then
      match rest with
      | [] => Except.error "-o requires an argument"
      | p :: rest2 => parse_loop { args with output_path := some p } rest2
    else if a.take 5 = "-std=" then
      parse_loop { args with cxx_standard := some a } rest
    else
      parse_loop { args with build_args := append args.build_args a } rest

/-- Source: `parse_cpprun_args` (cpprun.cpp lines 152-199): environment
phase followed by the token loop. -/
def parse_cpprun_args (env : Env) (cpprun_args : List String) : Except String CpprunArgs :=
  parse_loop (parse_env env) cpprun_args

/-- Source: `collect_build_args` (cpprun.cpp lines 201-213), written as the
same sequence of `append` / `extend` steps as the C++ function. -/
def collect_build_args (args : CpprunArgs) (output_file : String) : List String :=
  let cmd : List String := []
  let cmd :=
    match args.cxx_standard with
    | some s => append cmd s
    | none => cmd
  let cmd := extend cmd args.build_args
  let cmd := if args.build_only then append cmd "-c" else cmd
  let cmd := append cmd "-o"
  append cmd output_file

/-- Outcome of one `fork` / `execvp` / `waitpid` round as observed by the
parent in `runCmd` (cpprun.cpp lines 83-118): `fork` may fail, `waitpid`
may fail, or `waitpid` yields a raw status word. -/
inductive SpawnResult where
  | forkFailed : SpawnResult
  | waitFailed : SpawnResult
  | waited : Nat → SpawnResult
  deriving DecidableEq, Repr

/-- Source: the status mapping of `runCmd` (cpprun.cpp lines 88-117).
`fork` failure and `waitpid` failure both return 127.  The status word is
decoded with the glibc macro arithmetic:
`WIFEXITED(s) = ((s & 0x7f) == 0)`, `WEXITSTATUS(s) = (s >> 8) & 0xff`,
`WIFSIGNALED(s)` holds when `s & 0x7f` is neither 0 nor 0x7f, and
`WTERMSIG(s) = s & 0x7f`.  A status that is neither an exit nor a signal is
returned unchanged (the final `return status`).  The function is total:
every path yields a number, mirroring that the C++ function never throws. -/
def runCmd : SpawnResult → Nat
  | SpawnResult.forkFailed => 127
  | SpawnResult.waitFailed => 127
  | SpawnResult.waited s =>
    if s % 128 = 0 then s / 256 % 256
    else if s % 128 ≠ 127 then 128 + s % 128
    else s

/-- Model of `fs::path::parent_path` on the string paths used here: drop
the final path component (everything from the last `/` on); a lone root
`/` is kept, and a path without `/` has an empty parent. -/
def parent_path (p : String) : String :=
  match (p.toList.reverse.dropWhile (fun c => c ≠ '/')) with
  | [] => ""
  | [_] => "/"
  | _ :: rest => String.mk rest.reverse

/-- External world supplied to one run of `inner_main`: the random
temporary subdirectory chosen by `make_random_temp_path`, the effect of
`fs::absolute`, the outcome of the k-th subprocess spawn, whether
`fs::exists` finds the output artifact after compilation, and whether
`fs::remove_all` succeeds during cleanup. -/
structure Oracle where
  tempSubdir : String
  absolutize : String → String
  spawn : Nat → SpawnResult
  artifactCreated : Bool
  removeSucceeds : Bool

/-- Externally visible events of one run, in order: a subprocess invocation
(program, argument vector, verbosity of its logging), a recursive removal
attempt during cleanup, and the missing-artifact diagnostic on stderr. -/
inductive Event where
  | run : String → List String → Bool → Event
  | removeDir : String → Bool → Event
  | errMsg : String → Event
  deriving DecidableEq, Repr

/-- The info short-circuit condition (cpprun.cpp line 245): the parsed flag,
or a literal `--version` or `-v` among the raw tool-side arguments. -/
def info_shortcut (args : CpprunArgs) (cpprun_args : List String) : Bool :=
  args.show_compiler_info || contains cpprun_args "--version" || contains cpprun_args "-v"

/-- Output path resolution (cpprun.cpp lines 250-254): the user-supplied
path if any, otherwise a file named `artifact.o` / `artifact.exe` inside the
random temporary directory; either way passed through `fs::absolute`. -/
def resolve_output (o : Oracle) (args : CpprunArgs) : String :=
  o.absolutize
    (match args.output_path with
     | some p => p
     | none =>
       o.tempSubdir ++ "/" ++ (if args.build_only then "artifact.o" else "artifact.exe"))

/-- The cleanup lambda (cpprun.cpp lines 258-269): when the output path was
tool-created (`args.output_path` empty) it attempts `fs::remove_all` on the
parent directory, swallowing any failure (`catch (...)`); with a
user-supplied output path it does nothing.  The removal outcome is recorded
but never influences control flow or the exit code. -/
def cleanup_events (o : Oracle) (args : CpprunArgs) (outPath : String) : List Event :=
  match args.output_path with
  | none => [Event.removeDir (parent_path outPath) o.removeSucceeds]
  | some _ => []

/-- The compile-and-run tail of `inner_main` (cpprun.cpp lines 271-291):
compile; on nonzero compiler exit or build-only, clean up and return the
compiler's code; on a missing artifact, print the diagnostic, clean up and
return 127; otherwise run the produced binary with the program-side
arguments, clean up and return its exit code. -/
def run_phase (o : Oracle) (args : CpprunArgs) (run_args : List String) :
    Nat × List Event :=
  let outPath := resolve_output o args
  let compileEv := Event.run args.cxx (collect_build_args args outPath) args.verbose
  let rc := runCmd (o.spawn 0)
  if rc ≠ 0 ∨ args.build_only = true then
    (rc, [compileEv] ++ cleanup_events o args outPath)
  else if o.artifactCreated = false then
    (127, [compileEv, Event.errMsg outPath] ++ cleanup_events o args outPath)
  else
    (runCmd (o.spawn 1),
     [compileEv, Event.run outPath run_args args.verbose] ++ cleanup_events o args outPath)

/-- Source: `inner_main` (cpprun.cpp lines 239-292).  Split the arguments
at `--`, parse options (a parse failure is the uncaught
`std::runtime_error`, modelled as `Except.error`, with no event emitted),
take the compiler-version short circuit when requested — note the result of
that `runCmd` call is discarded and 0 is returned — and otherwise run the
compile-and-run phase. -/
def inner_main (o : Oracle) (env : Env) (argv : List String) :
    Except String (Nat × List Event) :=
  let parts := split_args argv "--"
  match parse_cpprun_args env parts.1 with
  | Except.error e => Except.error e
  | Except.ok args =>
    if info_shortcut args parts.1 then
      Except.ok (0, [Event.run args.cxx ["--version"] true])
    else
      Except.ok (run_phase o args parts.2)

/-- The spec-side shape of the environment-derived language-standard flag
(spec section 4.2): default when the variable is unset, disabled when it is
set empty, its value otherwise. -/
def env_standard : Option String → Option String
  | none => some DEFAULT_CXX_STANDARD
  | some v => if v = "" then none else some v

/-- An environment with none of the four variables set. -/
def env0 : Env :=
  { cxxflags := none, verbose := none, cxx_standard := none, cxx := none }

/-- A concrete oracle for witnesses: both spawns exit 0 normally and the
artifact appears. -/
def wOracle : Oracle :=
  { tempSubdir := "/tmp/cpprun-1234-42"
    absolutize := fun p => p
    spawn := fun _ => SpawnResult.waited 0
    artifactCreated := true
    removeSucceeds := true }

/-- A concrete oracle whose first spawn exits normally with status 5
(status word 5 * 256). -/
def cxOracle : Oracle :=
  { tempSubdir := "/tmp/cpprun-1234-42"
    absolutize := fun p => p
    spawn := fun _ => SpawnResult.waited (5 * 256)
    artifactCreated := true
    removeSucceeds := true }

/-- Recognizer for cleanup-removal events. -/
def is_remove_event : Event → Bool
  | Event.removeDir _ _ => true
  | _ => false

/-- Parse result of the single passthrough token `-O2` under `env0`. -/
def wr1 : CpprunArgs :=
  { default_cpprun_args with build_args := extend DEFAULT_CXXFLAGS ["-O2"] }

/-- Parse result of the single token `-c` under `env0`. -/
def wr2 : CpprunArgs :=
  { default_cpprun_args with build_only := true, build_args := DEFAULT_CXXFLAGS }

/-- Parse result of the single token `prog.cpp` under `env0`. -/
def wArgs : CpprunArgs :=
  { default_cpprun_args with build_args := extend DEFAULT_CXXFLAGS ["prog.cpp"] }

/-- Parse result of the single token `--cpprun-compiler-info` under `env0`. -/
def wArgsInfo : CpprunArgs :=
  { default_cpprun_args with show_compiler_info := true, build_args := DEFAULT_CXXFLAGS }

/-- Parse result of the tokens `-v prog.cpp` under `env0`. -/
def wArgsV : CpprunArgs :=
  { default_cpprun_args with build_args := extend DEFAULT_CXXFLAGS ["-v", "prog.cpp"] }

end cpprun

namespace cpprun

lemma takeWhile_append_sep (sep : String) (pre post : List String) (h : sep ∉ pre) :
    (pre ++ sep :: post).takeWhile (fun a => a != sep) = pre := by
  induction pre with
  | nil => simp
  | cons x xs ih =>
    have hx : x ≠ sep := fun he => h (by simp [he])
    simp only [List.cons_append, List.takeWhile_cons]
    simp [hx, ih (fun hm => h (List.mem_cons_of_mem _ hm))]

lemma dropWhile_append_sep (sep : String) (pre post : List String) (h : sep ∉ pre) :
    (pre ++ sep :: post).dropWhile (fun a => a != sep) = sep :: post := by
  induction pre with
  | nil => simp
  | cons x xs ih =>
    have hx : x ≠ sep := fun he => h (by simp [he])
    simp only [List.cons_append, List.dropWhile_cons]
    simp [hx, ih (fun hm => h (List.mem_cons_of_mem _ hm))]

lemma split_args_no_sep (args : List String) (sep : String) (h : sep ∉ args) :
    split_args args sep = (args, []) := by
  simp [split_args, h]

lemma split_args_first_sep (pre post : List String) (sep : String) (h : sep ∉ pre) :
    split_args (pre ++ sep :: post) sep = (pre, post) := by
  have hmem : sep ∈ pre ++ sep :: post := by simp
  simp [split_args, hmem, takeWhile_append_sep sep pre post h,
    dropWhile_append_sep sep pre post h]

end cpprun

namespace cpprun

/-- C3: if the separator token is absent, the tool-side sequence equals the
input verbatim and the program-side sequence is empty; if it is present, the
tool-side sequence is exactly the arguments strictly before its first
occurrence, the program-side sequence exactly those strictly after it, the
first separator is dropped, and later occurrences (anywhere in `post`)
remain literal program-side arguments. -/
theorem C3_split_args (args pre post : List String) (sep : String)
    (habs : sep ∉ args) (hpre : sep ∉ pre) :
    split_args args sep = (args, []) ∧
    split_args (pre ++ sep :: post) sep = (pre, post) :=
  ⟨split_args_no_sep args sep habs, split_args_first_sep pre post sep hpre⟩

/-- Witness for C3 at concrete inputs; the program-side part keeps a later
`--` occurrence as a literal argument. -/
theorem C3_split_args_witness :
    split_args ["a", "b"] "--" = (["a", "b"], []) ∧
    split_args (["x"] ++ "--" :: ["--", "y"]) "--" = (["x"], ["--", "y"]) :=
  C3_split_args ["a", "b"] ["x"] ["--", "y"] "--" (by decide) (by decide)

/-- C4: the compiler argument vector is exactly, in order: the standard
flag if one is present, then the extra flags in their stored order, then
`-c` if build-only mode is set, then `-o` followed by the output path. -/
theorem C4_collect_build_args (args : CpprunArgs) (out : String) :
    collect_build_args args out =
      (match args.cxx_standard with
       | some s => [s]
       | none => []) ++
        args.build_args ++
        (if args.build_only then ["-c"] else []) ++ ["-o", out] := by
  cases h : args.cxx_standard <;> cases hb : args.build_only <;>
    simp [collect_build_args, append, extend, h, hb]

/-- C2: the process runner returns a numeric code on every input (the Lean
function is total, mirroring that the C++ function never throws): 127 when
`fork` fails, 127 when `waitpid` fails, the child's exit status value on
normal termination (status word `256 * c`), and 128 plus the signal number
on termination by signal (status word `sig + d` where `d` is the core-dump
bit, 0 or 128). -/
theorem C2_runCmd_status (c sig d : Nat)
    (hc : c < 256) (h1 : 1 ≤ sig) (h2 : sig ≤ 126) (hd : d = 0 ∨ d = 128) :
    runCmd SpawnResult.forkFailed = 127 ∧
    runCmd SpawnResult.waitFailed = 127 ∧
    runCmd (SpawnResult.waited (256 * c)) = c ∧
    runCmd (SpawnResult.waited (sig + d)) = 128 + sig := by
  refine ⟨rfl, rfl, ?_, ?_⟩
  · have h0 : 256 * c % 128 = 0 := by omega
    simp only [runCmd, h0, if_pos]
    omega
  · have hne : ¬((sig + d) % 128 = 0) := by omega
    have hns : (sig + d) % 128 ≠ 127 := by omega
    simp only [runCmd, if_neg hne, if_pos hns]
    omega

/-- Witness for C2: the child exits with status 5 (word 1280), or dies on
signal 9 with the core-dump bit set (word 137). -/
theorem C2_runCmd_status_witness :
    runCmd SpawnResult.forkFailed = 127 ∧
    runCmd SpawnResult.waitFailed = 127 ∧
    runCmd (SpawnResult.waited (256 * 5)) = 5 ∧
    runCmd (SpawnResult.waited (9 + 128)) = 128 + 9 :=
  C2_runCmd_status 5 9 128 (by decide) (by decide) (by decide) (Or.inr rfl)

end cpprun

namespace cpprun

lemma parse_loop_nil_ok (acc r : CpprunArgs) (h : parse_loop acc [] = Except.ok r) :
    acc = r := by
  simpa [parse_loop] using h

lemma parse_loop_cons (acc : CpprunArgs) (a : String) (rest : List String) :
    parse_loop acc (a :: rest) =
      (if a = "--cpprun-compiler-info" then
        parse_loop { acc with show_compiler_info := true } rest
      else if a = "-c" then
        parse_loop { acc with build_only := true } rest
      else if a = "-o" then
        (match rest with
         | [] => Except.error "-o requires an argument"
         | p :: rest2 => parse_loop { acc with output_path := some p } rest2)
      else if a.take 5 = "-std=" then
        parse_loop { acc with cxx_standard := some a } rest
      else
        parse_loop { acc with build_args := append acc.build_args a } rest) := by
  cases rest <;> rfl

lemma parse_loop_append_aux (n : Nat) :
    ∀ (xs : List String), xs.length ≤ n → ∀ (acc r : CpprunArgs) (ys : List String),
      parse_loop acc xs = Except.ok r →
      parse_loop acc (xs ++ ys) = parse_loop r ys := by
  induction n with
  | zero =>
    intro xs hlen acc r ys h
    obtain rfl : xs = [] := List.length_eq_zero.mp (Nat.le_zero.mp hlen)
    obtain rfl : acc = r := parse_loop_nil_ok acc r h
    rfl
  | succ n ih =>
    intro xs hlen acc r ys h
    match xs with
    | [] =>
      obtain rfl : acc = r := parse_loop_nil_ok acc r h
      rfl
    | a :: rest =>
      simp only [List.length_cons, Nat.add_le_add_iff_right] at hlen
      rw [parse_loop_cons] at h
      rw [List.cons_append, parse_loop_cons]
      by_cases h1 : a = "--cpprun-compiler-info"
      · rw [if_pos h1] at h ⊢
        exact ih rest hlen { acc with show_compiler_info := true } r ys h
      · rw [if_neg h1] at h ⊢
        by_cases h2 : a = "-c"
        · rw [if_pos h2] at h ⊢
          exact ih rest hlen { acc with build_only := true } r ys h
        · rw [if_neg h2] at h ⊢
          by_cases h3 : a = "-o"
          · rw [if_pos h3] at h ⊢
            cases rest with
            | nil => exact absurd h (by simp)
            | cons p rest2 =>
              simp only [List.cons_append]
              have hlen2 : rest2.length ≤ n := by
                simp only [List.length_cons] at hlen
                omega
              exact ih rest2 hlen2 { acc with output_path := some p } r ys h
          · rw [if_neg h3] at h ⊢
            by_cases h4 : a.take 5 = "-std="
            · rw [if_pos h4] at h ⊢
              exact ih rest hlen { acc with cxx_standard := some a } r ys h
            · rw [if_neg h4] at h ⊢
              exact ih rest hlen { acc with build_args := append acc.build_args a } r ys h

lemma parse_loop_append (acc r : CpprunArgs) (xs ys : List String)
    (h : parse_loop acc xs = Except.ok r) :
    parse_loop acc (xs ++ ys) = parse_loop r ys :=
  parse_loop_append_aux xs.length xs le_rfl acc r ys h

lemma parse_loop_std_const_aux (n : Nat) :
    ∀ (xs : List String), xs.length ≤ n → ∀ (acc r : CpprunArgs),
      parse_loop acc xs = Except.ok r →
      (∀ a ∈ xs, a.take 5 ≠ "-std=") →
      r.cxx_standard = acc.cxx_standard := by
  induction n with
  | zero =>
    intro xs hlen acc r h _
    obtain rfl : xs = [] := List.length_eq_zero.mp (Nat.le_zero.mp hlen)
    obtain rfl : acc = r := parse_loop_nil_ok acc r h
    rfl
  | succ n ih =>
    intro xs hlen acc r h hstd
    match xs with
    | [] =>
      obtain rfl : acc = r := parse_loop_nil_ok acc r h
      rfl
    | a :: rest =>
      simp only [List.length_cons, Nat.add_le_add_iff_right] at hlen
      have hstd_rest : ∀ b ∈ rest, b.take 5 ≠ "-std=" :=
        fun b hb => hstd b (List.mem_cons_of_mem _ hb)
      rw [parse_loop_cons] at h
      by_cases h1 : a = "--cpprun-compiler-info"
      · rw [if_pos h1] at h
        exact ih rest hlen { acc with show_compiler_info := true } r h hstd_rest
      · rw [if_neg h1] at h
        by_cases h2 : a = "-c"
        · rw [if_pos h2] at h
          exact ih rest hlen { acc with build_only := true } r h hstd_rest
        · rw [if_neg h2] at h
          by_cases h3 : a = "-o"
          · rw [if_pos h3] at h
            cases rest with
            | nil => exact absurd h (by simp)
            | cons p rest2 =>
              have hlen2 : rest2.length ≤ n := by
                simp only [List.length_cons] at hlen
                omega
              have hstd2 : ∀ b ∈ rest2, b.take 5 ≠ "-std=" :=
                fun b hb => hstd_rest b (List.mem_cons_of_mem _ hb)
              exact ih rest2 hlen2 { acc with output_path := some p } r h hstd2
          · rw [if_neg h3] at h
            rw [if_neg (hstd a (List.mem_cons_self a rest))] at h
            exact ih rest hlen { acc with build_args := append acc.build_args a } r h hstd_rest

lemma parse_loop_std_const (acc r : CpprunArgs) (xs : List String)
    (h : parse_loop acc xs = Except.ok r)
    (hstd : ∀ a ∈ xs, a.take 5 ≠ "-std=") :
    r.cxx_standard = acc.cxx_standard :=
  parse_loop_std_const_aux xs.length xs le_rfl acc r h hstd

lemma parse_env_cxx_standard (env : Env) :
    (parse_env env).cxx_standard = env_standard env.cxx_standard := by
  obtain ⟨f, vb, std, cx⟩ := env
  cases f <;> cases vb <;> cases std <;> cases cx <;>
    simp [parse_env, default_cpprun_args, env_standard]

lemma parse_env_build_args (env : Env) :
    (parse_env env).build_args =
      (match env.cxxflags with
       | none => DEFAULT_CXXFLAGS
       | some v => split_whitespace v) := by
  obtain ⟨f, vb, std, cx⟩ := env
  cases f <;> cases vb <;> cases std <;> cases cx <;>
    simp [parse_env, default_cpprun_args, extend]

end cpprun

namespace cpprun

lemma std_token_ne (t : String) (ht : t.take 5 = "-std=") :
    t ≠ "--cpprun-compiler-info" ∧ t ≠ "-c" ∧ t ≠ "-o" := by
  refine ⟨?_, ?_, ?_⟩ <;> intro he <;> rw [he] at ht <;> exact absurd ht (by decide)

/-- C5: the language-standard flag defaults to `-std=c++23`; a present and
non-empty `CPPRUN_CXX_STANDARD` replaces it and a present empty one
disables it (all three cases bundled in `env_standard`), and this
environment-derived value is what any successful parse of a token list free
of `-std=`-prefixed tokens yields; appending a `-std=`-prefixed token to any
successfully parsed token list overrides that result with the token
verbatim. -/
theorem C5_standard_precedence (env : Env) :
    (∀ args r, parse_cpprun_args env args = Except.ok r →
        (∀ a ∈ args, a.take 5 ≠ "-std=") →
        r.cxx_standard = env_standard env.cxx_standard) ∧
    (∀ pre t r, t.take 5 = "-std=" →
        parse_cpprun_args env pre = Except.ok r →
        ∃ r2, parse_cpprun_args env (pre ++ [t]) = Except.ok r2 ∧
          r2.cxx_standard = some t) := by
  constructor
  · intro args r h hstd
    rw [parse_loop_std_const (parse_env env) r args h hstd]
    exact parse_env_cxx_standard env
  · intro pre t r ht hpre
    obtain ⟨hne1, hne2, hne3⟩ := std_token_ne t ht
    refine ⟨{ r with cxx_standard := some t }, ?_, rfl⟩
    rw [parse_cpprun_args] at hpre ⊢
    rw [parse_loop_append (parse_env env) r pre [t] hpre]
    rw [parse_loop_cons]
    rw [if_neg hne1, if_neg hne2, if_neg hne3, if_pos ht]
    rfl

/-- Witness for C5: under `env0` the no-`-std=` part yields the built-in
default, and appending `-std=c++17` to the already-parsed token `-c`
overrides it verbatim. -/
theorem C5_standard_precedence_witness :
    wr1.cxx_standard = env_standard env0.cxx_standard ∧
    ∃ r2, parse_cpprun_args env0 (["-c"] ++ ["-std=c++17"]) = Except.ok r2 ∧
      r2.cxx_standard = some "-std=c++17" :=
  ⟨(C5_standard_precedence env0).1 ["-O2"] wr1 (by rfl) (by decide),
   (C5_standard_precedence env0).2 ["-c"] "-std=c++17" wr2 (by rfl) (by rfl)⟩

/-- C6: the initial compiler-flag set (the parse result of an empty token
list) is the fixed baseline when `CPPRUN_CXXFLAGS` is absent and the
whitespace-split tokens of its value when present — even when the value is
empty, in which case the split is the empty list rather than the
baseline. -/
theorem C6_cxxflags_env (env : Env) :
    (∃ r, parse_cpprun_args env [] = Except.ok r ∧
      r.build_args =
        (match env.cxxflags with
         | none => DEFAULT_CXXFLAGS
         | some v => split_whitespace v)) ∧
    split_whitespace "" = [] := by
  refine ⟨⟨parse_env env, rfl, parse_env_build_args env⟩, ?_⟩
  rfl

end cpprun

namespace cpprun

lemma inner_main_ok (o : Oracle) (env : Env) (argv : List String) (args : CpprunArgs)
    (hp : parse_cpprun_args env (split_args argv "--").1 = Except.ok args) :
    inner_main o env argv =
      (if info_shortcut args (split_args argv "--").1 then
        Except.ok (0, [Event.run args.cxx ["--version"] true])
      else
        Except.ok (run_phase o args (split_args argv "--").2)) := by
  simp only [inner_main]
  rw [hp]

lemma inner_main_err (o : Oracle) (env : Env) (argv : List String) (e : String)
    (hp : parse_cpprun_args env (split_args argv "--").1 = Except.error e) :
    inner_main o env argv = Except.error e := by
  simp only [inner_main]
  rw [hp]

lemma inner_main_shortcut (o : Oracle) (env : Env) (argv : List String) (args : CpprunArgs)
    (hp : parse_cpprun_args env (split_args argv "--").1 = Except.ok args)
    (hi : info_shortcut args (split_args argv "--").1 = true) :
    inner_main o env argv = Except.ok (0, [Event.run args.cxx ["--version"] true]) := by
  rw [inner_main_ok o env argv args hp, if_pos hi]

lemma inner_main_no_shortcut (o : Oracle) (env : Env) (argv : List String)
    (args : CpprunArgs)
    (hp : parse_cpprun_args env (split_args argv "--").1 = Except.ok args)
    (hi : info_shortcut args (split_args argv "--").1 = false) :
    inner_main o env argv = Except.ok (run_phase o args (split_args argv "--").2) := by
  rw [inner_main_ok o env argv args hp, if_neg]
  rw [hi]
  exact Bool.false_ne_true

lemma run_phase_stop (o : Oracle) (args : CpprunArgs) (run_args : List String)
    (h : runCmd (o.spawn 0) ≠ 0 ∨ args.build_only = true) :
    run_phase o args run_args =
      (runCmd (o.spawn 0),
       [Event.run args.cxx (collect_build_args args (resolve_output o args)) args.verbose] ++
         cleanup_events o args (resolve_output o args)) := by
  simp only [run_phase]
  rw [if_pos h]

lemma run_phase_missing (o : Oracle) (args : CpprunArgs) (run_args : List String)
    (h0 : runCmd (o.spawn 0) = 0) (hb : args.build_only = false)
    (ha : o.artifactCreated = false) :
    run_phase o args run_args =
      (127,
       [Event.run args.cxx (collect_build_args args (resolve_output o args)) args.verbose,
        Event.errMsg (resolve_output o args)] ++
         cleanup_events o args (resolve_output o args)) := by
  simp only [run_phase]
  rw [if_neg (by rw [h0, hb]; simp), if_pos ha]

lemma run_phase_go (o : Oracle) (args : CpprunArgs) (run_args : List String)
    (h0 : runCmd (o.spawn 0) = 0) (hb : args.build_only = false)
    (ha : o.artifactCreated = true) :
    run_phase o args run_args =
      (runCmd (o.spawn 1),
       [Event.run args.cxx (collect_build_args args (resolve_output o args)) args.verbose,
        Event.run (resolve_output o args) run_args args.verbose] ++
         cleanup_events o args (resolve_output o args)) := by
  simp only [run_phase]
  rw [if_neg (by rw [h0, hb]; simp), if_neg (by simp [ha])]

end cpprun

namespace cpprun

/-- C1: for every invocation that reaches the compile step (options parsed
successfully, no info short-circuit), the final exit code is the compiler's
exit code when that code is nonzero or build-only is set; 127 with a
diagnostic event when the compiler exited 0, build-only is unset, and the
artifact is missing; and otherwise the exit code of running the produced
binary on the program-side arguments. -/
theorem C1_final_exit_code (o : Oracle) (env : Env) (argv : List String)
    (args : CpprunArgs)
    (hp : parse_cpprun_args env (split_args argv "--").1 = Except.ok args)
    (hni : info_shortcut args (split_args argv "--").1 = false) :
    (runCmd (o.spawn 0) ≠ 0 ∨ args.build_only = true →
      (inner_main o env argv).map Prod.fst = Except.ok (runCmd (o.spawn 0))) ∧
    (runCmd (o.spawn 0) = 0 → args.build_only = false → o.artifactCreated = false →
      ∃ evs, inner_main o env argv = Except.ok (127, evs) ∧
        Event.errMsg (resolve_output o args) ∈ evs) ∧
    (runCmd (o.spawn 0) = 0 → args.build_only = false → o.artifactCreated = true →
      ∃ evs, inner_main o env argv = Except.ok (runCmd (o.spawn 1), evs) ∧
        Event.run (resolve_output o args) (split_args argv "--").2 args.verbose ∈ evs) := by
  have hm := inner_main_no_shortcut o env argv args hp hni
  refine ⟨?_, ?_, ?_⟩
  · intro h
    rw [hm, run_phase_stop o args _ h]
    rfl
  · intro h0 hb ha
    rw [hm, run_phase_missing o args _ h0 hb ha]
    exact ⟨_, rfl, by simp⟩
  · intro h0 hb ha
    rw [hm, run_phase_go o args _ h0 hb ha]
    exact ⟨_, rfl, by simp⟩

/-- Witness for C1: compiling `prog.cpp` under `env0` with an oracle whose
spawns both exit 0 and whose artifact appears. -/
theorem C1_final_exit_code_witness :
    (runCmd (wOracle.spawn 0) ≠ 0 ∨ wArgs.build_only = true →
      (inner_main wOracle env0 ["prog.cpp"]).map Prod.fst =
        Except.ok (runCmd (wOracle.spawn 0))) ∧
    (runCmd (wOracle.spawn 0) = 0 → wArgs.build_only = false →
      wOracle.artifactCreated = false →
      ∃ evs, inner_main wOracle env0 ["prog.cpp"] = Except.ok (127, evs) ∧
        Event.errMsg (resolve_output wOracle wArgs) ∈ evs) ∧
    (runCmd (wOracle.spawn 0) = 0 → wArgs.build_only = false →
      wOracle.artifactCreated = true →
      ∃ evs, inner_main wOracle env0 ["prog.cpp"] =
          Except.ok (runCmd (wOracle.spawn 1), evs) ∧
        Event.run (resolve_output wOracle wArgs) (split_args ["prog.cpp"] "--").2
          wArgs.verbose ∈ evs) :=
  C1_final_exit_code wOracle env0 ["prog.cpp"] wArgs (by rfl) (by rfl)

/-- C7 counterexample: with a compiler whose `--version` invocation exits
with status 5, the info query still makes the program return 0 (the source
discards the `run_cmd` result at cpprun.cpp line 246 and returns 0 at line
247), so the program's exit code is not that invocation's exit code. -/
theorem C7_counterexample :
    (inner_main cxOracle env0 ["--cpprun-compiler-info"]).map Prod.fst =
      Except.ok 0 ∧
    runCmd (cxOracle.spawn 0) = 5 ∧
    ¬((inner_main cxOracle env0 ["--cpprun-compiler-info"]).map Prod.fst =
        Except.ok (runCmd (cxOracle.spawn 0))) := by
  refine ⟨rfl, rfl, ?_⟩
  intro h
  have h5 : runCmd (cxOracle.spawn 0) = 5 := rfl
  rw [h5] at h
  have h0 : (inner_main cxOracle env0 ["--cpprun-compiler-info"]).map Prod.fst =
      Except.ok 0 := rfl
  rw [h0] at h
  simp at h

/-- C7 (amended): whenever the info flag is set or an equivalent
version-query token appears among the tool-side arguments, the program
invokes the compiler exactly once, with the single flag `--version`, in
verbose mode regardless of the configured verbosity, performs no
compilation or execution (the trace holds exactly that one event), and
returns 0 regardless of that invocation's exit code. -/
theorem C7_info_query (o : Oracle) (env : Env) (argv : List String)
    (args : CpprunArgs)
    (hp : parse_cpprun_args env (split_args argv "--").1 = Except.ok args)
    (hi : info_shortcut args (split_args argv "--").1 = true) :
    inner_main o env argv = Except.ok (0, [Event.run args.cxx ["--version"] true]) :=
  inner_main_shortcut o env argv args hp hi

/-- Witness for C7 (amended) at the info token, with an oracle whose
spawn exits 5: the exit code is still 0. -/
theorem C7_info_query_witness :
    inner_main cxOracle env0 ["--cpprun-compiler-info"] =
      Except.ok (0, [Event.run wArgsInfo.cxx ["--version"] true]) :=
  C7_info_query cxOracle env0 ["--cpprun-compiler-info"] wArgsInfo (by rfl) (by rfl)

/-- C10 counterexample: the tool-side arguments contain `--version`, yet
the program does not take the shortcut and does not exit 0: option parsing
throws first (`-o` is last), because `parse_cpprun_args` runs before the
shortcut test (cpprun.cpp line 243 before line 245). -/
theorem C10_counterexample :
    "--version" ∈ ["--version", "-o"] ∧
    inner_main wOracle env0 ["--version", "-o"] =
      Except.error "-o requires an argument" :=
  ⟨by decide, rfl⟩

/-- C10 (amended): for every invocation whose tool-side arguments contain a
token exactly equal to `-v` or `--version` and whose option parsing
succeeds, the orchestrator takes the compiler-version shortcut: the trace
is exactly one compiler invocation with the single flag `--version` (so
those tokens are never forwarded to a compile invocation), no compilation
or execution occurs, and the program exits 0. -/
theorem C10_version_shortcut (o : Oracle) (env : Env) (argv : List String)
    (args : CpprunArgs)
    (hp : parse_cpprun_args env (split_args argv "--").1 = Except.ok args)
    (hv : "--version" ∈ (split_args argv "--").1 ∨ "-v" ∈ (split_args argv "--").1) :
    inner_main o env argv = Except.ok (0, [Event.run args.cxx ["--version"] true]) := by
  apply inner_main_shortcut o env argv args hp
  rcases hv with hv | hv
  · have hc : contains (split_args argv "--").1 "--version" = true := by
      simpa [contains] using List.elem_eq_true_of_mem hv
    simp [info_shortcut, hc]
  · have hc : contains (split_args argv "--").1 "-v" = true := by
      simpa [contains] using List.elem_eq_true_of_mem hv
    simp [info_shortcut, hc]

/-- Witness for C10 (amended): `-v prog.cpp` with successful parsing takes
the shortcut and exits 0. -/
theorem C10_version_shortcut_witness :
    inner_main wOracle env0 ["-v", "prog.cpp"] =
      Except.ok (0, [Event.run wArgsV.cxx ["--version"] true]) :=
  C10_version_shortcut wOracle env0 ["-v", "prog.cpp"] wArgsV (by rfl)
    (Or.inr (by decide))

/-- C8 counterexample: the list `["-o", "-o"]` ends with the output-path
token with no following token, yet option parsing succeeds — the final
`-o` is consumed as the value of the first one — so no usage error is
signalled. -/
theorem C8_counterexample :
    parse_cpprun_args env0 ["-o", "-o"] =
      Except.ok { default_cpprun_args with
        output_path := some "-o", build_args := DEFAULT_CXXFLAGS } := rfl

/-- C8 (amended): for every tool-side argument list ending in the
output-path token where that final token is in option position — i.e. the
preceding tokens themselves parse successfully, so it is not consumed as
the value of an earlier output-path token — option parsing signals the
thrown usage error, and the whole run fails with that error before any
subprocess is spawned (the error carries no trace, so no compiler or
program invocation occurs). -/
theorem C8_trailing_output_token (o : Oracle) (env : Env) (pre : List String)
    (r : CpprunArgs)
    (hpre : parse_cpprun_args env pre = Except.ok r)
    (hsep : "--" ∉ pre) :
    parse_cpprun_args env (pre ++ ["-o"]) = Except.error "-o requires an argument" ∧
    inner_main o env (pre ++ ["-o"]) = Except.error "-o requires an argument" := by
  have h1 : parse_cpprun_args env (pre ++ ["-o"]) =
      Except.error "-o requires an argument" := by
    rw [parse_cpprun_args] at hpre ⊢
    rw [parse_loop_append (parse_env env) r pre ["-o"] hpre]
    rfl
  refine ⟨h1, ?_⟩
  have hsep2 : "--" ∉ pre ++ ["-o"] := by
    intro hm
    rcases List.mem_append.mp hm with hm | hm
    · exact hsep hm
    · exact absurd (List.mem_singleton.mp hm) (by decide)
  apply inner_main_err
  rw [split_args_no_sep (pre ++ ["-o"]) "--" hsep2]
  exact h1

/-- Witness for C8 (amended): the passthrough token `-O2` parses fine, and
appending `-o` produces the usage error with no subprocess event. -/
theorem C8_trailing_output_token_witness :
    parse_cpprun_args env0 (["-O2"] ++ ["-o"]) =
      Except.error "-o requires an argument" ∧
    inner_main wOracle env0 (["-O2"] ++ ["-o"]) =
      Except.error "-o requires an argument" :=
  C8_trailing_output_token wOracle env0 ["-O2"] wr1 (by rfl) (by decide)

end cpprun

namespace cpprun

/-- C9: on every run that reaches output-path resolution, the run
terminates normally (cleanup never throws) with exactly one cleanup:
the trace contains no removal event when the user supplied an explicit
output path, exactly one removal of the tool-created directory (the output
path's parent) otherwise — on every branch — and the removal outcome never
changes the final exit code. -/
theorem C9_cleanup_once (o : Oracle) (env : Env) (argv : List String)
    (args : CpprunArgs)
    (hp : parse_cpprun_args env (split_args argv "--").1 = Except.ok args)
    (hni : info_shortcut args (split_args argv "--").1 = false) :
    ∃ code evs, inner_main o env argv = Except.ok (code, evs) ∧
      (args.output_path = none →
        evs.filter is_remove_event =
          [Event.removeDir (parent_path (resolve_output o args)) o.removeSucceeds]) ∧
      (∀ p, args.output_path = some p → evs.filter is_remove_event = []) ∧
      (∀ b, (inner_main { o with removeSucceeds := b } env argv).map Prod.fst =
        Except.ok code) := by
  have hm := inner_main_no_shortcut o env argv args hp hni
  by_cases h1 : runCmd (o.spawn 0) ≠ 0 ∨ args.build_only = true
  · rw [hm, run_phase_stop o args _ h1]
    refine ⟨runCmd (o.spawn 0), _, rfl, ?_, ?_, ?_⟩
    · intro hop
      simp [cleanup_events, hop, is_remove_event]
    · intro p hop
      simp [cleanup_events, hop, is_remove_event]
    · intro b
      rw [inner_main_no_shortcut { o with removeSucceeds := b } env argv args hp hni,
        run_phase_stop { o with removeSucceeds := b } args _ h1]
      rfl
  · obtain ⟨h0, hb⟩ := not_or.mp h1
    rw [not_not] at h0
    have hb2 : args.build_only = false := by simpa using hb
    rcases Bool.eq_false_or_eq_true o.artifactCreated with hart | hart
    · rw [hm, run_phase_go o args _ h0 hb2 hart]
      refine ⟨runCmd (o.spawn 1), _, rfl, ?_, ?_, ?_⟩
      · intro hop
        simp [cleanup_events, hop, is_remove_event]
      · intro p hop
        simp [cleanup_events, hop, is_remove_event]
      · intro b
        rw [inner_main_no_shortcut { o with removeSucceeds := b } env argv args hp hni,
          run_phase_go { o with removeSucceeds := b } args _ h0 hb2 hart]
        rfl
    · rw [hm, run_phase_missing o args _ h0 hb2 hart]
      refine ⟨127, _, rfl, ?_, ?_, ?_⟩
      · intro hop
        simp [cleanup_events, hop, is_remove_event]
      · intro p hop
        simp [cleanup_events, hop, is_remove_event]
      · intro b
        rw [inner_main_no_shortcut { o with removeSucceeds := b } env argv args hp hni,
          run_phase_missing { o with removeSucceeds := b } args _ h0 hb2 hart]
        rfl

/-- Witness for C9: a full successful execute run under `env0`, with a
tool-created temporary directory. -/
theorem C9_cleanup_once_witness :
    ∃ code evs, inner_main wOracle env0 ["prog.cpp", "--", "x"] =
        Except.ok (code, evs) ∧
      (wArgs.output_path = none →
        evs.filter is_remove_event =
          [Event.removeDir (parent_path (resolve_output wOracle wArgs))
            wOracle.removeSucceeds]) ∧
      (∀ p, wArgs.output_path = some p → evs.filter is_remove_event = []) ∧
      (∀ b, (inner_main { wOracle with removeSucceeds := b } env0
          ["prog.cpp", "--", "x"]).map Prod.fst = Except.ok code) :=
  C9_cleanup_once wOracle env0 ["prog.cpp", "--", "x"] wArgs (by rfl) (by rfl)

end cpprun
